import Mathlib

/-!
Verification of `src/python/say_digit.py`.

The source file defines a single recursive function:

```
def say_digit(digit :int) -> str:
    words = ['zero', 'one', 'two', 'three', 'four', 'five', 'six', 'seven', 'eight', 'nine']
    if digit == 0:
        return ''
    digit = digit % 10
    remaining = digit // 10
    return words[digit] + say_digit(remaining)
```

We embed Python integers as `Int`, Python `%`/`//` (floor semantics) as
`Int.fmod`/`Int.fdiv`, Python list indexing (which can raise `IndexError`
and allows negative indices counting from the end) as an `Option`-valued
lookup, and the possibility of an uncaught exception by giving `say_digit`
the result type `Option String` (`none` = the call raises).

Note the rebinding in the source: `digit = digit % 10` happens *before*
`remaining = digit // 10`, so `remaining` is computed from the already
reduced value and is always `0`.
-/

namespace SayDigit

/-- The table `words` from `say_digit.py`, in source order. -/
def words : List String :=
  ["zero", "one", "two", "three", "four", "five", "six", "seven", "eight", "nine"]

/-- Python list indexing `xs[i]`: a negative index counts from the end of the
list; an index out of range raises `IndexError`, modelled as `none`. -/
def pyIndex (xs : List String) (i : Int) : Option String :=
  let j : Int := if i < 0 then i + xs.length else i
  if h : 0 ≤ j ∧ j.toNat < xs.length then some (xs.get ⟨j.toNat, h.2⟩) else none

/-- `say_digit` from `say_digit.py`. Mirrors the source line by line:
the zero base case, the rebinding `digit = digit % 10`, the computation
`remaining = digit // 10` from the rebound value, the list lookup and the
recursive call. `none` models an uncaught `IndexError`. -/
def say_digit (digit : Int) : Option String :=
  if h : digit = 0 then
    some ""
  else
    let d := Int.fmod digit 10
    let remaining := Int.fdiv d 10
    match pyIndex words d, say_digit remaining with
    | some w, some rest => some (w ++ rest)
    | _, _ => none
termination_by (if digit = 0 then 0 else 1 : Nat)
decreasing_by
  have hz : Int.fdiv (Int.fmod digit 10) 10 = 0 := by
    rw [Int.fdiv_eq_ediv _ (by norm_num : (0:Int) ≤ 10)]
    exact Int.ediv_eq_zero_of_lt (Int.fmod_nonneg' _ (by norm_num))
      (Int.fmod_lt_of_pos _ (by norm_num))
  simp only [hz]
  simp [h]

/-- Fuel-indexed evaluator for the same recursion, used to express
termination: the outer `none` means the fuel ran out before the recursion
reached its base case, `some r` means the Python call finishes with result
`r` (where `r = none` models an uncaught exception). -/
def say_digit_fuel : Nat → Int → Option (Option String)
  | 0, _ => none
  | fuel + 1, digit =>
    if digit = 0 then
      some (some "")
    else
      let d := Int.fmod digit 10
      let remaining := Int.fdiv d 10
      match pyIndex words d, say_digit_fuel fuel remaining with
      | _, none => none
      | none, some _ => some none
      | some _, some none => some none
      | some w, some (some rest) => some (some (w ++ rest))

/-- The right-hand side of claim C1: `table[n mod 10]` concatenated with
`say_digit(n div 10)`, with `mod`/`div` the floor operations Python uses. -/
def spec_rhs (n : Int) : Option String :=
  Option.bind (pyIndex words (Int.fmod n 10))
    (fun w => Option.map (fun r => w ++ r) (say_digit (Int.fdiv n 10)))

/-- The last digit `digit % 10` is nonnegative (Python floor modulo). -/
theorem fmod_ten_nonneg (a : Int) : 0 ≤ Int.fmod a 10 :=
  Int.fmod_nonneg' a (by norm_num)

/-- The last digit `digit % 10` is below `10`. -/
theorem fmod_ten_lt (a : Int) : Int.fmod a 10 < 10 :=
  Int.fmod_lt_of_pos a (by norm_num)

/-- The value `remaining = (digit % 10) // 10` computed by the source is
always `0`: the dividend already lies in `[0, 10)`. -/
theorem remaining_eq_zero (a : Int) : Int.fdiv (Int.fmod a 10) 10 = 0 := by
  rw [Int.fdiv_eq_ediv _ (by norm_num : (0:Int) ≤ 10)]
  exact Int.ediv_eq_zero_of_lt (fmod_ten_nonneg a) (fmod_ten_lt a)

/-- Base case of `say_digit`: input `0` yields the empty string. -/
theorem say_digit_zero : say_digit 0 = some "" := by
  unfold say_digit
  simp

/-- The lookup `words[digit % 10]` never raises: it returns the entry at
position `(digit % 10).toNat` of the table. -/
theorem pyIndex_words_fmod (a : Int) :
    pyIndex words (Int.fmod a 10) =
      some (words.get ⟨(Int.fmod a 10).toNat, by
        have h1 := fmod_ten_nonneg a
        have h2 := fmod_ten_lt a
        simp only [words, List.length]
        omega⟩) := by
  have h1 := fmod_ten_nonneg a
  have h2 := fmod_ten_lt a
  unfold pyIndex
  have hneg : ¬ Int.fmod a 10 < 0 := by omega
  simp only [hneg, if_false]
  have hlen : (words.length : Int) = 10 := by simp [words]
  rw [dif_pos ⟨h1, by omega⟩]

/-- Unfolding of `say_digit` on nonzero input: since `remaining` is always
`0`, the call returns exactly the table entry for the last digit. -/
theorem say_digit_of_ne_zero (n : Int) (h : n ≠ 0) :
    say_digit n = pyIndex words (Int.fmod n 10) := by
  unfold say_digit
  simp only [h, remaining_eq_zero, say_digit_zero, pyIndex_words_fmod,
    String.append_empty]
  simp

/-- C1: the spec claims that for every nonzero `n`, `say_digit n` equals
`table[n mod 10]` concatenated with `say_digit (n div 10)`. The code instead
derives the recursive argument from the already-reduced digit, so at
`n = 12` it returns `"two"` while the claimed expression yields `"twoone"`:
the claim fails on the code. -/
theorem say_digit_twelve_breaks_spec_recursion :
    say_digit 12 = some "two" ∧ spec_rhs 12 = some "twoone" ∧
      say_digit 12 ≠ spec_rhs 12 := by
  have h12 : say_digit 12 = some "two" := by
    rw [say_digit_of_ne_zero 12 (by decide)]; decide
  have hr : spec_rhs 12 = some "twoone" := by
    have h1 : Int.fdiv 12 10 = (1:Int) := by decide
    unfold spec_rhs
    rw [h1, say_digit_of_ne_zero 1 (by decide)]
    decide
  exact ⟨h12, hr, by rw [h12, hr]; decide⟩

/-- C2: `say_digit 0` returns the empty string `""`, not `"zero"`. -/
theorem say_digit_zero_is_empty :
    say_digit 0 = some "" ∧ say_digit 0 ≠ some "zero" :=
  ⟨say_digit_zero, by rw [say_digit_zero]; decide⟩

/-- C3: for every single-digit input `d` with `1 ≤ d ≤ 9`, `say_digit d`
returns the `d`-th entry of the digit table. -/
theorem say_digit_single_digit (d : Int) (h1 : 1 ≤ d) (h2 : d ≤ 9) :
    say_digit d = some (words.getD d.toNat "") := by
  interval_cases d <;> (rw [say_digit_of_ne_zero _ (by decide)]; decide)

/-- Witness for C3 at `d = 5`: `say_digit 5 = "five"`. -/
theorem say_digit_single_digit_witness :
    (1:Int) ≤ 5 ∧ (5:Int) ≤ 9 ∧ say_digit 5 = some "five" :=
  ⟨by decide, by decide,
    (say_digit_single_digit 5 (by decide) (by decide)).trans (by decide)⟩

/-- C4: the spec claims `say_digit 12 = "twoone"`; the code returns `"two"`
because the recursive call always receives `0`. -/
theorem say_digit_twelve_not_twoone :
    say_digit 12 = some "two" ∧ say_digit 12 ≠ some "twoone" := by
  have h12 : say_digit 12 = some "two" := by
    rw [say_digit_of_ne_zero 12 (by decide)]; decide
  exact ⟨h12, by rw [h12]; decide⟩

/-- C5: the table entry at index 0 is the literal string `"zero"` and it is
what `say_digit 10` emits for the `0` digit of `10`; but the spec claim
`say_digit 10 = "zeroone"` fails: the code returns just `"zero"`. -/
theorem say_digit_ten_not_zeroone :
    pyIndex words 0 = some "zero" ∧ say_digit 10 = some "zero" ∧
      say_digit 10 ≠ some "zeroone" := by
  have h10 : say_digit 10 = some "zero" := by
    rw [say_digit_of_ne_zero 10 (by decide)]; decide
  exact ⟨by decide, h10, by rw [h10]; decide⟩

/-- C6: `say_digit` is a deterministic function of its input: equal integer
arguments give equal result strings (the embedding is a pure function, so
there is no state for it to read or write). -/
theorem say_digit_deterministic (m n : Int) (h : m = n) :
    say_digit m = say_digit n := by
  rw [h]

/-- Witness for C6 at `m = n = 7`. -/
theorem say_digit_deterministic_witness : say_digit 7 = say_digit 7 :=
  say_digit_deterministic 7 7 rfl

/-- C7: the digit table is an ordered sequence of exactly 10 strings, fixed
as index 0 → "zero" through index 9 → "nine" (being a Lean `def`, `words` is
immutable by construction, matching the never-mutated claim). -/
theorem words_fixed_table :
    words.length = 10 ∧ words.getD 0 "" = "zero" ∧ words.getD 1 "" = "one" ∧
      words.getD 2 "" = "two" ∧ words.getD 3 "" = "three" ∧
      words.getD 4 "" = "four" ∧ words.getD 5 "" = "five" ∧
      words.getD 6 "" = "six" ∧ words.getD 7 "" = "seven" ∧
      words.getD 8 "" = "eight" ∧ words.getD 9 "" = "nine" := by
  decide

/-- C8: for every nonnegative input, the recursion terminates: fuel 2
already suffices for the fuel-indexed evaluator to reach the base case and
agree with `say_digit` (the recursion ends because `remaining` is `0`). -/
theorem say_digit_terminates (n : Int) (h : 0 ≤ n) :
    say_digit_fuel 2 n = some (say_digit n) := by
  by_cases hn : n = 0
  · subst hn
    rw [say_digit_zero]
    decide
  · rw [say_digit_of_ne_zero n hn]
    simp only [say_digit_fuel, hn, if_false, remaining_eq_zero]
    rw [pyIndex_words_fmod n]
    simp [say_digit_fuel]

/-- Witness for C8 at `n = 12`. -/
theorem say_digit_terminates_witness :
    (0:Int) ≤ 12 ∧ say_digit_fuel 2 12 = some (say_digit 12) :=
  ⟨by decide, say_digit_terminates 12 (by decide)⟩

/-- C9: for every nonzero `n`, the recursive call receives `0` (since
`remaining = (n mod 10) div 10 = 0`) and the result is exactly the single
table entry for `n mod 10`. -/
theorem say_digit_always_single_word (n : Int) (h : n ≠ 0) :
    Int.fdiv (Int.fmod n 10) 10 = 0 ∧
      say_digit n = pyIndex words (Int.fmod n 10) :=
  ⟨remaining_eq_zero n, say_digit_of_ne_zero n h⟩

/-- Witness for C9 at `n = 345`: the output is the single word `"five"`. -/
theorem say_digit_always_single_word_witness :
    (345:Int) ≠ 0 ∧ Int.fdiv (Int.fmod 345 10) 10 = 0 ∧
      say_digit 345 = pyIndex words (Int.fmod 345 10) ∧
      pyIndex words (Int.fmod 345 10) = some "five" :=
  ⟨by decide, (say_digit_always_single_word 345 (by decide)).1,
    (say_digit_always_single_word 345 (by decide)).2, by decide⟩

/-- C10: `say_digit` never raises for any integer input, negatives
included: the table index `n mod 10` always lies in `[0, 9]` under floor
modulo, so the lookup is in bounds; in particular `say_digit (-1) = "nine"`. -/
theorem say_digit_never_raises :
    (∀ n : Int, (say_digit n).isSome = true) ∧ say_digit (-1) = some "nine" := by
  constructor
  · intro n
    by_cases hn : n = 0
    · subst hn
      rw [say_digit_zero]
      rfl
    · rw [say_digit_of_ne_zero n hn, pyIndex_words_fmod n]
      rfl
  · rw [say_digit_of_ne_zero (-1) (by decide)]
    decide

end SayDigit
